import Mathlib

/-!
Verification development for the deployment orchestrator of the
void-main-app repository: the webhook-triggered deployment controller
(src/controllers/DeploymentController.ts) and the shell deployment
pipeline (deploy-update.sh), embedded shallowly as pure Lean functions.
-/

namespace VoidMain

/-! JSON values, as produced by the express.json body parser and consumed
by JSON.stringify.  Numbers are modelled as integers (the payload fields
the controller reads are all strings, so the number representation is
irrelevant to the claims). -/

inductive Json where
  | null : Json
  | bool (b : Bool) : Json
  | num (n : Int) : Json
  | str (s : String) : Json
  | arr (elems : List Json) : Json
  | obj (fields : List (String × Json)) : Json
deriving Repr

/-- Escape one character the way JSON.stringify does (the subset needed
for the strings this repository handles: quote, backslash, newline, tab,
carriage return; other characters are emitted verbatim). -/
def escapeChar (c : Char) : String :=
  if c = '"' then "\\\""
  else if c = '\\' then "\\\\"
  else if c = '\n' then "\\n"
  else if c = '\t' then "\\t"
  else if c = '\r' then "\\r"
  else String.singleton c

/-- JSON string quoting as done by JSON.stringify. -/
def quoteJson (s : String) : String :=
  "\"" ++ String.join (s.data.map escapeChar) ++ "\""

mutual

/-- Model of JSON.stringify: compact serialization, no added whitespace,
object keys in insertion order. -/
def stringify : Json → String
  | .null => "null"
  | .bool b => if b then "true" else "false"
  | .num n => toString n
  | .str s => quoteJson s
  | .arr elems => "[" ++ String.intercalate "," (stringifyList elems) ++ "]"
  | .obj fields => "\x7b" ++ String.intercalate "," (stringifyFields fields) ++ "\x7d"

def stringifyList : List Json → List String
  | [] => []
  | j :: js => stringify j :: stringifyList js

def stringifyFields : List (String × Json) → List String
  | [] => []
  | (k, v) :: fs => (quoteJson k ++ ":" ++ stringify v) :: stringifyFields fs

end

/-- First field of the given name in a JSON object, if any. -/
def Json.getField? (j : Json) (key : String) : Option Json :=
  match j with
  | .obj fields => (fields.find? (fun kv => kv.1 == key)).map (·.2)
  | _ => none

/-- String-valued field lookup: some s exactly when the field is present
and is a JSON string. -/
def Json.getStr? (j : Json) (key : String) : Option String :=
  match j.getField? key with
  | some (.str s) => some s
  | _ => none

/-! A small JSON parser modelling JSON.parse (as applied by the
express.json middleware to the raw request body).  Fuel-indexed for
termination; the fuel is chosen large enough for any input of the given
length. -/

def lbrace : Char := Char.ofNat 123
def rbrace : Char := Char.ofNat 125

def isJsonWs (c : Char) : Bool :=
  c = ' ' || c = '\t' || c = '\n' || c = '\r'

def skipWs : List Char → List Char
  | [] => []
  | c :: cs => if isJsonWs c then skipWs cs else c :: cs

/-- Parse the remainder of a JSON string literal (the opening quote
already consumed), handling the standard two-character escapes. -/
def parseStringRest : List Char → Option (String × List Char)
  | [] => none
  | c :: cs =>
    if c = '"' then some ("", cs)
    else if c = '\\' then
      match cs with
      | [] => none
      | e :: cs2 =>
        let dec : Option Char :=
          if e = '"' then some '"'
          else if e = '\\' then some '\\'
          else if e = '/' then some '/'
          else if e = 'n' then some '\n'
          else if e = 't' then some '\t'
          else if e = 'r' then some '\r'
          else none
        match dec with
        | none => none
        | some d =>
          match parseStringRest cs2 with
          | some (s, rest) => some (String.singleton d ++ s, rest)
          | none => none
    else
      match parseStringRest cs with
      | some (s, rest) => some (String.singleton c ++ s, rest)
      | none => none

def digitsToNat (acc : Nat) : List Char → Nat × List Char
  | [] => (acc, [])
  | c :: cs =>
    if c.isDigit then digitsToNat (acc * 10 + (c.toNat - 48)) cs
    else (acc, c :: cs)

/-- Parse a JSON number (integral part only; fractional payloads do not
occur in the fields this system reads). -/
def parseNumber : List Char → Option (Json × List Char)
  | [] => none
  | c :: cs =>
    if c = '-' then
      match cs with
      | d :: _ =>
        if d.isDigit then
          let (n, rest) := digitsToNat 0 cs
          some (.num (-(n : Int)), rest)
        else none
      | [] => none
    else if c.isDigit then
      let (n, rest) := digitsToNat 0 (c :: cs)
      some (.num (n : Int), rest)
    else none

mutual

def parseValue (fuel : Nat) (cs : List Char) : Option (Json × List Char) :=
  match fuel with
  | 0 => none
  | fuel + 1 =>
    match skipWs cs with
    | [] => none
    | c :: rest =>
      if c = '"' then
        match parseStringRest rest with
        | some (s, r) => some (.str s, r)
        | none => none
      else if c = lbrace then
        match skipWs rest with
        | d :: r2 =>
          if d = rbrace then some (.obj [], r2)
          else parseFields fuel (d :: r2) []
        | [] => none
      else if c = '[' then
        match skipWs rest with
        | d :: r2 =>
          if d = ']' then some (.arr [], r2)
          else parseElems fuel (d :: r2) []
        | [] => none
      else if c = 't' then
        match rest with
        | 'r' :: 'u' :: 'e' :: r2 => some (.bool true, r2)
        | _ => none
      else if c = 'f' then
        match rest with
        | 'a' :: 'l' :: 's' :: 'e' :: r2 => some (.bool false, r2)
        | _ => none
      else if c = 'n' then
        match rest with
        | 'u' :: 'l' :: 'l' :: r2 => some (.null, r2)
        | _ => none
      else parseNumber (c :: rest)

def parseFields (fuel : Nat) (cs : List Char) (acc : List (String × Json)) :
    Option (Json × List Char) :=
  match fuel with
  | 0 => none
  | fuel + 1 =>
    match skipWs cs with
    | '"' :: rest =>
      match parseStringRest rest with
      | none => none
      | some (key, r1) =>
        match skipWs r1 with
        | ':' :: r2 =>
          match parseValue fuel r2 with
          | none => none
          | some (v, r3) =>
            match skipWs r3 with
            | ',' :: r4 => parseFields fuel r4 (acc ++ [(key, v)])
            | d :: r4 =>
              if d = rbrace then some (.obj (acc ++ [(key, v)]), r4)
              else none
            | [] => none
        | _ => none
    | _ => none

def parseElems (fuel : Nat) (cs : List Char) (acc : List Json) :
    Option (Json × List Char) :=
  match fuel with
  | 0 => none
  | fuel + 1 =>
    match parseValue fuel cs with
    | none => none
    | some (v, r1) =>
      match skipWs r1 with
      | ',' :: r2 => parseElems fuel r2 (acc ++ [v])
      | ']' :: r2 => some (.arr (acc ++ [v]), r2)
      | _ => none

end

/-- Model of JSON.parse on the raw request body: parse one value and
require only trailing whitespace after it. -/
def jsonParse (s : String) : Option Json :=
  match parseValue (2 * s.length + 2) s.data with
  | some (j, rest) =>
    match skipWs rest with
    | [] => some j
    | _ => none
  | none => none

/-! The webhook verifier and the deployment controller
(src/controllers/DeploymentController.ts).  The HMAC-SHA256 primitive
(crypto.createHmac ... .digest) is an external library collaborator and
is a parameter of the model: every theorem below holds for an arbitrary
hex-digest function. -/

/-- UTF-8 encoding of one character (the byte view Buffer.from takes of
a JavaScript string). -/
def charUtf8 (c : Char) : List Nat :=
  let n := c.toNat
  if n < 0x80 then [n]
  else if n < 0x800 then
    [0xC0 ||| (n >>> 6), 0x80 ||| (n &&& 0x3F)]
  else if n < 0x10000 then
    [0xE0 ||| (n >>> 12), 0x80 ||| ((n >>> 6) &&& 0x3F), 0x80 ||| (n &&& 0x3F)]
  else
    [0xF0 ||| (n >>> 18), 0x80 ||| ((n >>> 12) &&& 0x3F),
     0x80 ||| ((n >>> 6) &&& 0x3F), 0x80 ||| (n &&& 0x3F)]

/-- Model of Buffer.from(s): the UTF-8 bytes of the string. -/
def bufferFrom (s : String) : List Nat :=
  s.data.flatMap charUtf8

/-- Model of crypto.timingSafeEqual: throws a RangeError when the two
buffers differ in byte length, otherwise reports whether they are equal. -/
def timingSafeEqual (a b : List Nat) : Except String Bool :=
  if a.length = b.length then .ok (a == b)
  else .error "RangeError: input buffers must have the same byte length"

/-- Model of DeploymentController.verifySignature (lines 41-56).  The
result is in Except because the comparison can throw: Buffer.from throws
a TypeError when the signature header is absent (undefined), and
timingSafeEqual throws a RangeError on a length mismatch.  When no
webhook secret is configured the verifier accepts unconditionally before
ever touching the signature. -/
def verifySignature (hmacSha256Hex : String → String → String)
    (webhookSecret : String) (payload : String) (signature : Option String) :
    Except String Bool :=
  if webhookSecret = "" then
    .ok true
  else
    let expectedSignature := "sha256=" ++ hmacSha256Hex webhookSecret payload
    match signature with
    | none => .error "TypeError: argument must be of type string or Buffer"
    | some sig => timingSafeEqual (bufferFrom sig) (bufferFrom expectedSignature)

/-- In-memory controller state: the configured secret and the
process-wide deployment-in-progress flag. -/
structure ControllerState where
  webhookSecret : String
  deploymentInProgress : Bool
deriving Repr, DecidableEq

/-- Controller construction (line 30): the secret falls back to the
empty string when the environment variable is unset. -/
def controllerInit (envSecret : Option String) : ControllerState :=
  { webhookSecret := envSecret.getD "", deploymentInProgress := false }

/-- The HTTP responses the deployment routes can produce. -/
inductive DeployResponse where
  | invalidSignature : DeployResponse
  | ignoredNotMainBranch : DeployResponse
  | deploymentBusy : DeployResponse
  | deploymentStarted (commit : Option String) : DeployResponse
  | manualDeploymentStarted : DeployResponse
  | internalServerError : DeployResponse
deriving Repr, DecidableEq

/-- HTTP status code of each response, as sent by the controller. -/
def DeployResponse.status : DeployResponse → Nat
  | .invalidSignature => 401
  | .ignoredNotMainBranch => 200
  | .deploymentBusy => 429
  | .deploymentStarted _ => 200
  | .manualDeploymentStarted => 200
  | .internalServerError => 500

/-- The message or error string carried in each JSON response body. -/
def DeployResponse.message : DeployResponse → String
  | .invalidSignature => "Invalid signature"
  | .ignoredNotMainBranch => "Ignored - not main branch"
  | .deploymentBusy => "Deployment already in progress"
  | .deploymentStarted _ => "Deployment started"
  | .manualDeploymentStarted => "Manual deployment started"
  | .internalServerError => "Internal server error"

/-- Commit metadata extracted from the webhook payload, passed to the
deployment script environment. -/
structure CommitMeta where
  id : Option String
  message : Option String
  authorName : Option String
deriving Repr, DecidableEq

/-- The payload string the webhook handler hands to the verifier
(line 61): JSON.stringify of the already-parsed request body, not the
raw bytes received on the wire. -/
def webhookHmacPayload (body : Json) : String :=
  stringify body

/-- Field accesses webhookPayload.head_commit.{id, message, author.name}.
none means the access path threw a TypeError (head_commit absent or
null), which the surrounding try/catch turns into a 500 response. -/
def headCommitMeta (body : Json) : Option CommitMeta :=
  match body.getField? "head_commit" with
  | none => none
  | some .null => none
  | some hc =>
    some { id := hc.getStr? "id",
           message := hc.getStr? "message",
           authorName := (hc.getField? "author").bind (fun a => a.getStr? "name") }

/-- Model of DeploymentController.handleWebhook (lines 58-99) up to the
point the HTTP response is sent.  Returns the response, the controller
state at that point, and the commit metadata of the deployment attempt
the handler started (none when no attempt was started).  startDeployment
runs synchronously up to its first await, so the in-progress flag is
already true when the response goes out. -/
def handleWebhook (hmacSha256Hex : String → String → String)
    (st : ControllerState) (body : Json) (signatureHeader : Option String) :
    DeployResponse × ControllerState × Option CommitMeta :=
  let payload := webhookHmacPayload body
  match verifySignature hmacSha256Hex st.webhookSecret payload signatureHeader with
  | .error _ => (.internalServerError, st, none)
  | .ok false => (.invalidSignature, st, none)
  | .ok true =>
    if body.getStr? "ref" ≠ some "refs/heads/main" then
      (.ignoredNotMainBranch, st, none)
    else if st.deploymentInProgress then
      (.deploymentBusy, st, none)
    else
      match headCommitMeta body with
      | none => (.internalServerError, st, none)
      | some meta =>
        (.deploymentStarted meta.id,
         { st with deploymentInProgress := true }, some meta)

/-- Model of DeploymentController.manualDeploy (lines 101-116): same
entry point as the webhook, with no commit metadata. -/
def manualDeploy (st : ControllerState) :
    DeployResponse × ControllerState × Bool :=
  if st.deploymentInProgress then
    (.deploymentBusy, st, false)
  else
    (.manualDeploymentStarted, { st with deploymentInProgress := true }, true)

/-- First half of startDeployment (line 119): the in-progress flag is
set before any asynchronous work. -/
def startDeploymentBegin (st : ControllerState) : ControllerState :=
  { st with deploymentInProgress := true }

/-- End of startDeployment (lines 122-148): the try/catch swallows any
error from the deployment script, and the finally block clears the
in-progress flag on every path. -/
def startDeploymentFinish (st : ControllerState)
    (scriptOutcome : Except String Unit) : ControllerState :=
  match scriptOutcome with
  | .ok _ => { st with deploymentInProgress := false }
  | .error _ => { st with deploymentInProgress := false }

/-- A whole startDeployment attempt: flag up, run the script to its
outcome, flag down in the finally block. -/
def startDeployment (st : ControllerState)
    (scriptOutcome : Except String Unit) : ControllerState :=
  startDeploymentFinish (startDeploymentBegin st) scriptOutcome

/-! The deployment shell script (deploy-update.sh), embedded as a pure
state transformer.  External processes (git, npm, rc-service, ping) are
collaborators whose exit statuses and produced trees are inputs of one
script run. -/

/-- The part of the working tree the script backs up and restores: the
dist build output and the installed dependency tree.  dist is the list
of files in the dist directory (empty list models a missing or empty
directory). -/
structure TreeContent where
  dist : List String
  nodeModules : List String
deriving Repr, DecidableEq

/-- One timestamped backup directory under BACKUP_DIR. -/
structure BackupSnapshot where
  path : String
  createdAt : Nat
  content : TreeContent
deriving Repr, DecidableEq

/-- The .deployment-info.json record. -/
structure DeploymentRecord where
  timestamp : Nat
  commit : String
  commitMessage : String
  author : String
  branch : String
  success : Bool
  error : Option String
deriving Repr, DecidableEq

/-- Filesystem and service state the script manipulates.  backups is the
contents of BACKUP_DIR in newest-first modification order (the order
ls -1t lists them).  preflightRuns counts how many times the
pre-deployment checks block has executed (a trace variable). -/
structure ScriptState where
  repoTree : TreeContent
  backups : List BackupSnapshot
  lastBackup : Option String
  deploymentInfo : Option DeploymentRecord
  serviceRunning : Bool
  preflightRuns : Nat
deriving Repr, DecidableEq

/-- Inputs and collaborator outcomes of one script invocation.  The
COMMIT_ID, COMMIT_MESSAGE and AUTHOR environment variables are Options
(unset reads as the unknown default).  The Bools are the exit statuses
of the external commands the script runs; fetchedTree is the working
tree produced by the git reset, npm ci and npm run build sequence when
all of them succeed. -/
structure ScriptEnv where
  commitId : Option String
  commitMessage : Option String
  author : Option String
  packageJsonPresent : Bool
  gitInstalled : Bool
  npmInstalled : Bool
  inGitRepo : Bool
  gitStatusOk : Bool
  networkOk : Bool
  gitOpsSucceed : Bool
  npmCiSucceeds : Bool
  buildSucceeds : Bool
  stopServiceSucceeds : Bool
  startServiceSucceeds : Bool
  serviceStillRunningAfterSettle : Bool
  fetchedTree : TreeContent
  backupName : String
  now : Nat
deriving Repr, DecidableEq

/-- BACKUP_PATH for this run: BACKUP_DIR/backup-<timestamp>. -/
def backupPathOf (env : ScriptEnv) : String :=
  "/home/pi/backups/" ++ env.backupName

/-- The snapshot create_backup takes: a copy of the current dist and
node_modules trees under a timestamped directory. -/
def newSnapshot (env : ScriptEnv) (st : ScriptState) : BackupSnapshot :=
  { path := backupPathOf env, createdAt := env.now, content := st.repoTree }

/-- create_backup (lines 120-138): copy the current tree into a fresh
backup directory and write its path to the .last-backup pointer file. -/
def create_backup (env : ScriptEnv) (st : ScriptState) : ScriptState :=
  { st with backups := newSnapshot env st :: st.backups,
            lastBackup := some (backupPathOf env) }

/-- stop_service (lines 78-97): best-effort; a failure to stop is logged
and the pipeline continues. -/
def stop_service (env : ScriptEnv) (st : ScriptState) : ScriptState :=
  if st.serviceRunning then
    if env.stopServiceSucceeds then { st with serviceRunning := false } else st
  else st

/-- start_service (lines 100-117): returns the new state and whether the
start succeeded. -/
def start_service (env : ScriptEnv) (st : ScriptState) : ScriptState × Bool :=
  if env.startServiceSucceeds then ({ st with serviceRunning := true }, true)
  else (st, false)

/-- restore_backup (lines 141-155): read the .last-backup pointer, and
when the directory it names still exists, replace dist and node_modules
with the snapshot contents.  A missing pointer or directory is only
logged. -/
def restore_backup (st : ScriptState) : ScriptState :=
  match st.lastBackup with
  | none => st
  | some p =>
    match st.backups.find? (fun b => b.path == p) with
    | none => st
    | some b => { st with repoTree := b.content }

/-- cleanup_backups (lines 158-163): ls -1t lists newest first, tail -n
+6 selects everything after the first five, and those are removed, so
the newest five snapshots remain. -/
def cleanup_backups (st : ScriptState) : ScriptState :=
  { st with backups := st.backups.take 5 }

/-- validate_deployment (lines 166-183): dist must exist and be
non-empty and contain the index.js entry point. -/
def validate_deployment (tree : TreeContent) : Bool :=
  !tree.dist.isEmpty && tree.dist.contains "index.js"

/-- The DeploymentRecord written on success (lines 228-237). -/
def successRecord (env : ScriptEnv) : DeploymentRecord :=
  { timestamp := env.now,
    commit := env.commitId.getD "unknown",
    commitMessage := env.commitMessage.getD "unknown",
    author := env.author.getD "unknown",
    branch := "main",
    success := true,
    error := none }

/-- The DeploymentRecord written by the error handler (lines 276-286). -/
def failureRecord (env : ScriptEnv) : DeploymentRecord :=
  { timestamp := env.now,
    commit := env.commitId.getD "unknown",
    commitMessage := env.commitMessage.getD "unknown",
    author := env.author.getD "unknown",
    branch := "main",
    success := false,
    error := some "Deployment failed and was rolled back" }

/-- deploy (lines 186-259): the sequential pipeline.  Returns the state
reached and whether the run succeeded; a false result is handed to
handle_error by the ERR trap. -/
def deploy (env : ScriptEnv) (st : ScriptState) : ScriptState × Bool :=
  let st1 := create_backup env st
  let st2 := stop_service env st1
  if !env.gitOpsSucceed then (st2, false)
  else if !env.npmInstalled then (st2, false)
  else if !env.npmCiSucceeds then (st2, false)
  else if !env.buildSucceeds then (st2, false)
  else
    let st3 := { st2 with repoTree := env.fetchedTree }
    if !validate_deployment st3.repoTree then (st3, false)
    else
      let st4 := { st3 with deploymentInfo := some (successRecord env) }
      match start_service env st4 with
      | (st5, false) => (st5, false)
      | (st5, true) =>
        let st6 := { st5 with serviceRunning := env.serviceStillRunningAfterSettle }
        if !env.serviceStillRunningAfterSettle then (st6, false)
        else (cleanup_backups st6, true)

/-- handle_error (lines 262-289): restore the last backup, try to start
the service from the restored state, and overwrite the deployment record
with the failure record.  The script then exits 1. -/
def handle_error (env : ScriptEnv) (st : ScriptState) : ScriptState :=
  let st1 := restore_backup st
  let st2 := (start_service env st1).1
  { st2 with deploymentInfo := some (failureRecord env) }

/-- Whether the pre-deployment checks block (lines 294-327) passes. -/
def preflightOk (env : ScriptEnv) : Bool :=
  env.gitInstalled && env.npmInstalled && env.inGitRepo &&
    env.gitStatusOk && env.networkOk

/-- One invocation of deploy-update.sh: the package.json guard
(lines 51-54), the pre-deployment checks (lines 294-327), then deploy
with handle_error trapped on failure.  Returns the final state and the
exit code of the process. -/
def runDeployScript (env : ScriptEnv) (st : ScriptState) : ScriptState × Nat :=
  if !env.packageJsonPresent then (st, 1)
  else
    let st := { st with preflightRuns := st.preflightRuns + 1 }
    if !preflightOk env then (st, 1)
    else
      match deploy env st with
      | (st1, true) => (st1, 0)
      | (st1, false) => (handle_error env st1, 1)

/-- ScriptEnv as built by DeploymentController.startDeployment
(lines 128-132): the child environment always carries COMMIT_ID,
COMMIT_MESSAGE and AUTHOR, defaulted to the manual placeholders when the
webhook payload does not supply them. -/
def envForAttempt (meta : Option CommitMeta) (env : ScriptEnv) : ScriptEnv :=
  match meta with
  | none =>
    { env with commitId := some "manual",
               commitMessage := some "Manual deployment",
               author := some "Manual" }
  | some m =>
    { env with commitId := some (m.id.getD "manual"),
               commitMessage := some (m.message.getD "Manual deployment"),
               author := some (m.authorName.getD "Manual") }

/-- A full webhook-triggered round: the handler runs, and when it
started an attempt, the script executes and the finally block clears the
flag (executeCommand rejects on a non-zero exit, which the catch block
swallows). -/
def webhookAttempt (hmacSha256Hex : String → String → String)
    (cs : ControllerState) (ss : ScriptState) (body : Json)
    (signatureHeader : Option String) (env : ScriptEnv) :
    DeployResponse × ControllerState × ScriptState :=
  match handleWebhook hmacSha256Hex cs body signatureHeader with
  | (r, cs1, none) => (r, cs1, ss)
  | (r, cs1, some meta) =>
    let (ss1, code) := runDeployScript (envForAttempt (some meta) env) ss
    let outcome : Except String Unit :=
      if code = 0 then .ok () else .error "Command failed"
    (r, startDeploymentFinish cs1 outcome, ss1)

/-! Auxiliary definitions for the statements: byte tampering, a
full-success predicate on script runs, iterated deployments, and
concrete fixtures used by the witnesses. -/

/-- Flip bit k of the byte at index i (the byte-for-byte single-bit
tampering of a signature). -/
def flipBit (bs : List Nat) (i k : Nat) : List Nat :=
  bs.set i ((bs.getD i 0) ^^^ (2 ^ k))

/-- All collaborator outcomes of a run succeed and the fetched tree
validates: the run is a successful deployment. -/
def deployFullyOk (env : ScriptEnv) : Bool :=
  env.packageJsonPresent && preflightOk env && env.gitOpsSucceed &&
    env.npmCiSucceeds && env.buildSucceeds && validate_deployment env.fetchedTree &&
    env.startServiceSucceeds && env.serviceStillRunningAfterSettle

/-- A sequence of script runs in trigger order. -/
def deployMany (envs : List ScriptEnv) (ss : ScriptState) : ScriptState :=
  envs.foldl (fun s e => (runDeployScript e s).1) ss

/-- Fixture: a working tree that passes build-output validation. -/
def okTree : TreeContent := { dist := ["index.js"], nodeModules := ["express"] }

/-- Fixture: a working tree that fails build-output validation. -/
def badTree : TreeContent := { dist := [], nodeModules := [] }

/-- Fixture: a fresh script state with no backups. -/
def ssFix : ScriptState :=
  { repoTree := okTree, backups := [], lastBackup := none,
    deploymentInfo := none, serviceRunning := true, preflightRuns := 0 }

/-- Fixture: a script environment in which every collaborator succeeds. -/
def envFix : ScriptEnv :=
  { commitId := some "abc123", commitMessage := some "msg", author := some "me",
    packageJsonPresent := true, gitInstalled := true, npmInstalled := true,
    inGitRepo := true, gitStatusOk := true, networkOk := true,
    gitOpsSucceed := true, npmCiSucceeds := true, buildSucceeds := true,
    stopServiceSucceeds := true, startServiceSucceeds := true,
    serviceStillRunningAfterSettle := true,
    fetchedTree := okTree, backupName := "backup-1", now := 1 }

/-- Fixture: a well-formed push payload for the main branch. -/
def bodyMain : Json :=
  Json.obj [("ref", Json.str "refs/heads/main"),
            ("head_commit", Json.obj [("id", Json.str "abc123")])]

/-! Helper lemmas. -/

theorem xor_pow_ne (a k : Nat) : a ^^^ (2 ^ k) ≠ a := by
  intro h
  have h2 : a ^^^ (a ^^^ (2 ^ k)) = a ^^^ a := by rw [h]
  rw [← Nat.xor_assoc, Nat.xor_self, Nat.zero_xor] at h2
  exact Nat.pos_iff_ne_zero.mp (Nat.two_pow_pos k) h2

theorem flipBit_ne (bs : List Nat) (i k : Nat) (h : i < bs.length) :
    flipBit bs i k ≠ bs := by
  intro heq
  apply xor_pow_ne (bs.getD i 0) k
  have h2 : (flipBit bs i k).getD i 0 = bs.getD i 0 := by rw [heq]
  rw [flipBit, List.getD_eq_getElem?_getD, List.getD_eq_getElem?_getD,
    List.getElem?_set_self (by simpa using h)] at h2
  simpa using h2

theorem flipBit_length (bs : List Nat) (i k : Nat) :
    (flipBit bs i k).length = bs.length := by
  simp [flipBit]

/-- C4: with a secret configured, the verifier never accepts a signature
whose byte encoding differs from the expected sha256-prefixed digest
string; in particular a signature equal to the expected one with any
single bit of any byte flipped is rejected with a false verdict. -/
theorem C4_tampered_signature_rejected (hmacHex : String → String → String)
    (secret payload : String) (hsecret : secret ≠ "") :
    (∀ sig : String,
        bufferFrom sig ≠ bufferFrom ("sha256=" ++ hmacHex secret payload) →
        verifySignature hmacHex secret payload (some sig) ≠ .ok true) ∧
    (∀ (sig : String) (i k : Nat),
        i < (bufferFrom ("sha256=" ++ hmacHex secret payload)).length → k < 8 →
        bufferFrom sig = flipBit (bufferFrom ("sha256=" ++ hmacHex secret payload)) i k →
        verifySignature hmacHex secret payload (some sig) = .ok false) := by
  constructor
  · intro sig hne
    simp only [verifySignature, if_neg hsecret, timingSafeEqual]
    split
    · intro hb
      exact hne (by simpa using hb)
    · exact fun h => Except.noConfusion h
  · intro sig i k hi hk heq
    simp only [verifySignature, if_neg hsecret, timingSafeEqual]
    rw [if_pos (by rw [heq, flipBit_length])]
    have hne : bufferFrom sig ≠ bufferFrom ("sha256=" ++ hmacHex secret payload) := by
      rw [heq]; exact flipBit_ne _ i k hi
    simp [hne]

theorem C4_tampered_signature_rejected_witness :
    verifySignature (fun _ _ => "ab") "s" "p" (some "rha256=ab") = .ok false :=
  (C4_tampered_signature_rejected (fun _ _ => "ab") "s" "p" (by decide)).2
    "rha256=ab" 0 0 (by decide) (by decide) (by decide)

/-- C2: the deployment-in-progress flag is true at the start of every
attempt and false once the attempt ends, for every script outcome,
including a rejected promise from a throwing step, because the clear
sits in the finally block. -/
theorem C2_in_progress_flag_lifecycle :
    ∀ (st : ControllerState) (outcome : Except String Unit),
      (startDeploymentBegin st).deploymentInProgress = true ∧
      (startDeployment st outcome).deploymentInProgress = false := by
  intro st outcome
  exact ⟨rfl, by cases outcome <;> rfl⟩

/-- C8: when no webhook secret is configured (the environment variable
is unset, so the controller stores the empty string), the verifier
accepts every request, whatever the payload and whether or not a
signature header is present. -/
theorem C8_no_secret_accepts_all :
    ∀ (hmacHex : String → String → String) (payload : String) (signature : Option String),
      verifySignature hmacHex (controllerInit none).webhookSecret payload signature = .ok true ∧
      (controllerInit none).webhookSecret = "" := by
  intro hmacHex payload signature
  exact ⟨rfl, rfl⟩

/-- C1: while a deployment is in progress, any webhook trigger leaves
the controller state unchanged and starts no attempt; a webhook trigger
that passes verification and targets the main branch, and any manual
trigger, are rejected with the busy response (HTTP 429), leaving both
the controller state and the script state of the running attempt
untouched — so at most one deployment is ever in progress. -/
theorem C1_concurrent_trigger_rejected (hmacHex : String → String → String)
    (st : ControllerState) (ss : ScriptState) (body : Json)
    (signatureHeader : Option String) (env : ScriptEnv)
    (hbusy : st.deploymentInProgress = true) :
    ((handleWebhook hmacHex st body signatureHeader).2.1 = st ∧
      (handleWebhook hmacHex st body signatureHeader).2.2 = none) ∧
    (verifySignature hmacHex st.webhookSecret (webhookHmacPayload body) signatureHeader = .ok true →
      body.getStr? "ref" = some "refs/heads/main" →
      webhookAttempt hmacHex st ss body signatureHeader env = (.deploymentBusy, st, ss)) ∧
    manualDeploy st = (.deploymentBusy, st, false) ∧
    DeployResponse.deploymentBusy.status = 429 := by
  refine ⟨?_, ?_, ?_, rfl⟩
  · cases hv : verifySignature hmacHex st.webhookSecret (webhookHmacPayload body) signatureHeader with
    | error e =>
      simp only [handleWebhook]
      rw [hv]
      exact ⟨rfl, rfl⟩
    | ok b =>
      cases b with
      | false =>
        simp only [handleWebhook]
        rw [hv]
        exact ⟨rfl, rfl⟩
      | true =>
        simp only [handleWebhook]
        rw [hv]
        by_cases href : body.getStr? "ref" ≠ some "refs/heads/main"
        · rw [if_pos href]
          exact ⟨rfl, rfl⟩
        · rw [if_neg href, if_pos hbusy]
          exact ⟨rfl, rfl⟩
  · intro hsig href
    simp only [webhookAttempt, handleWebhook]
    rw [hsig, if_neg (by simp [href]), if_pos hbusy]
  · simp only [manualDeploy]
    rw [if_pos hbusy]

theorem C1_concurrent_trigger_rejected_witness :
    webhookAttempt (fun _ _ => "") ⟨"", true⟩ ssFix bodyMain none envFix
        = (.deploymentBusy, ⟨"", true⟩, ssFix) ∧
    manualDeploy ⟨"", true⟩ = (.deploymentBusy, ⟨"", true⟩, false) := by
  have h := C1_concurrent_trigger_rejected (fun _ _ => "") ⟨"", true⟩ ssFix bodyMain none envFix rfl
  exact ⟨h.2.1 rfl rfl, h.2.2.1⟩

/-- C5: a verified push whose ref is not refs/heads/main is acknowledged
with the 200 response whose message is the ignored-branch text, the
controller state is unchanged, and the script state is untouched: no
backup is created and the deployment pipeline never starts. -/
theorem C5_non_main_branch_ignored (hmacHex : String → String → String)
    (cs : ControllerState) (ss : ScriptState) (body : Json)
    (signatureHeader : Option String) (env : ScriptEnv)
    (hsig : verifySignature hmacHex cs.webhookSecret (webhookHmacPayload body) signatureHeader = .ok true)
    (href : body.getStr? "ref" ≠ some "refs/heads/main") :
    webhookAttempt hmacHex cs ss body signatureHeader env = (.ignoredNotMainBranch, cs, ss) ∧
    DeployResponse.ignoredNotMainBranch.message = "Ignored - not main branch" ∧
    DeployResponse.ignoredNotMainBranch.status = 200 := by
  refine ⟨?_, rfl, rfl⟩
  simp only [webhookAttempt, handleWebhook]
  rw [hsig, if_pos href]

theorem C5_non_main_branch_ignored_witness :
    webhookAttempt (fun _ _ => "") ⟨"", false⟩ ssFix
        (Json.obj [("ref", Json.str "refs/heads/feature-x")]) none envFix
      = (.ignoredNotMainBranch, ⟨"", false⟩, ssFix) :=
  (C5_non_main_branch_ignored (fun _ _ => "") ⟨"", false⟩ ssFix
    (Json.obj [("ref", Json.str "refs/heads/feature-x")]) none envFix rfl (by decide)).1

/-- C10: with a secret configured, a request with no signature header,
or with a signature whose byte length differs from the expected
sha256-prefixed digest string, makes the comparison throw, and the
handler answers 500 Internal server error instead of the 401 rejection;
the controller and script state are unchanged. -/
theorem C10_malformed_signature_header_500 (hmacHex : String → String → String)
    (cs : ControllerState) (ss : ScriptState) (body : Json) (env : ScriptEnv)
    (hsecret : cs.webhookSecret ≠ "") :
    webhookAttempt hmacHex cs ss body none env = (.internalServerError, cs, ss) ∧
    (∀ sig : String,
      (bufferFrom sig).length
          ≠ (bufferFrom ("sha256=" ++ hmacHex cs.webhookSecret (webhookHmacPayload body))).length →
      webhookAttempt hmacHex cs ss body (some sig) env = (.internalServerError, cs, ss)) ∧
    DeployResponse.internalServerError.status = 500 ∧
    DeployResponse.internalServerError.message = "Internal server error" := by
  refine ⟨?_, ?_, rfl, rfl⟩
  · simp only [webhookAttempt, handleWebhook, verifySignature]
    rw [if_neg hsecret]
  · intro sig hlen
    simp only [webhookAttempt, handleWebhook, verifySignature, timingSafeEqual]
    rw [if_neg hsecret, if_neg hlen]

theorem C10_malformed_signature_header_500_witness :
    webhookAttempt (fun _ _ => "ab") ⟨"s", false⟩ ssFix (Json.obj []) none envFix
        = (.internalServerError, ⟨"s", false⟩, ssFix) ∧
    webhookAttempt (fun _ _ => "ab") ⟨"s", false⟩ ssFix (Json.obj []) (some "x") envFix
        = (.internalServerError, ⟨"s", false⟩, ssFix) := by
  have h := C10_malformed_signature_header_500 (fun _ _ => "ab") ⟨"s", false⟩ ssFix
    (Json.obj []) envFix (by decide)
  exact ⟨h.1, h.2.1 "x" (by decide)⟩

/-! Script-pipeline lemmas. -/

theorem deploy_validation_failure (env : ScriptEnv) (st : ScriptState)
    (hgit : env.gitOpsSucceed = true) (hnpm : env.npmInstalled = true)
    (hci : env.npmCiSucceeds = true) (hbuild : env.buildSucceeds = true)
    (hval : validate_deployment env.fetchedTree = false) :
    deploy env st
      = ({ stop_service env (create_backup env st) with repoTree := env.fetchedTree }, false) := by
  simp [deploy, hgit, hnpm, hci, hbuild, hval]

/-- C3: when the pipeline reaches build-output validation and it fails,
the run exits 1 (the controller promise rejects on the non-zero exit),
the error handler restores exactly the snapshot created at the start of
this attempt — it is the newest backup, the last-backup pointer names
it, and the restored tree is its content, which is the tree from before
the attempt — the service start is attempted from the restored state,
and the deployment record marks failure with a non-empty error string. -/
theorem C3_fatal_step_rollback (env : ScriptEnv) (ss : ScriptState)
    (hpkg : env.packageJsonPresent = true)
    (hpre : preflightOk env = true)
    (hgit : env.gitOpsSucceed = true)
    (hci : env.npmCiSucceeds = true)
    (hbuild : env.buildSucceeds = true)
    (hval : validate_deployment env.fetchedTree = false) :
    (runDeployScript env ss).2 = 1 ∧
    (runDeployScript env ss).1.backups.head? = some (newSnapshot env ss) ∧
    (runDeployScript env ss).1.lastBackup = some (newSnapshot env ss).path ∧
    (runDeployScript env ss).1.repoTree = (newSnapshot env ss).content ∧
    (newSnapshot env ss).content = ss.repoTree ∧
    (env.startServiceSucceeds = true → (runDeployScript env ss).1.serviceRunning = true) ∧
    (runDeployScript env ss).1.deploymentInfo = some (failureRecord env) ∧
    (failureRecord env).success = false ∧
    (failureRecord env).error = some "Deployment failed and was rolled back" := by
  have h := hpre
  simp only [preflightOk, Bool.and_eq_true] at h
  obtain ⟨⟨⟨⟨hgiti, hnpmi⟩, hrepo⟩, hstat⟩, hnet⟩ := h
  simp only [runDeployScript, hpkg, hpre, Bool.not_true, Bool.false_eq_true, if_false,
    Bool.not_false, if_true]
  rw [deploy_validation_failure env _ hgit hnpmi hci hbuild hval]
  simp only [handle_error, restore_backup, create_backup, stop_service, start_service,
    newSnapshot, backupPathOf]
  simp [List.find?_cons, apply_ite]
  refine ⟨fun hss => ?_, rfl, rfl⟩
  split <;> exact Or.inl hss

theorem C3_fatal_step_rollback_witness :
    (runDeployScript { envFix with fetchedTree := badTree } ssFix).2 = 1 ∧
    (runDeployScript { envFix with fetchedTree := badTree } ssFix).1.repoTree = ssFix.repoTree ∧
    (runDeployScript { envFix with fetchedTree := badTree } ssFix).1.deploymentInfo
      = some (failureRecord { envFix with fetchedTree := badTree }) := by
  have h := C3_fatal_step_rollback { envFix with fetchedTree := badTree } ssFix
    rfl rfl rfl rfl rfl rfl
  exact ⟨h.1, by rw [h.2.2.2.1]; exact h.2.2.2.2.1, h.2.2.2.2.2.2.1⟩

theorem deploy_preflightRuns (env : ScriptEnv) (st : ScriptState) :
    (deploy env st).1.preflightRuns = st.preflightRuns := by
  cases hg : env.gitOpsSucceed <;>
    cases hn : env.npmInstalled <;>
      cases hc : env.npmCiSucceeds <;>
        cases hb : env.buildSucceeds <;>
          cases hs : env.startServiceSucceeds <;>
            cases hr : env.serviceStillRunningAfterSettle <;>
              cases hv : validate_deployment env.fetchedTree <;>
                simp [deploy, create_backup, stop_service, start_service, cleanup_backups,
                  hg, hn, hc, hb, hs, hr, hv, apply_ite]

theorem handle_error_preflightRuns (env : ScriptEnv) (st : ScriptState) :
    (handle_error env st).preflightRuns = st.preflightRuns := by
  unfold handle_error restore_backup start_service
  repeat' split
  all_goals simp [apply_ite]

/-- C9 counterexample: after two consecutive deployment attempts the
pre-deployment checks block has executed twice, not once — the checks
run on every attempt, refuting the once-before-the-first-attempt
claim. -/
theorem C9_counterexample :
    ((runDeployScript envFix (runDeployScript envFix ssFix).1).1).preflightRuns = 2 ∧
    ((runDeployScript envFix (runDeployScript envFix ssFix).1).1).preflightRuns ≠ 1 := by
  decide

/-- C9 amended: the pre-flight checks run at the start of every attempt
(once per script invocation), and a pre-flight failure aborts with exit
code 1 before any state is mutated: no backup, no service change, no
working-tree change, no record written. -/
theorem C9_preflight_every_attempt (env : ScriptEnv) (ss : ScriptState)
    (hpkg : env.packageJsonPresent = true) :
    (runDeployScript env ss).1.preflightRuns = ss.preflightRuns + 1 ∧
    (preflightOk env = false →
      runDeployScript env ss = ({ ss with preflightRuns := ss.preflightRuns + 1 }, 1)) := by
  constructor
  · simp only [runDeployScript, hpkg, Bool.not_true, Bool.false_eq_true, if_false]
    by_cases hp : preflightOk env = true
    · simp only [hp, Bool.not_true, Bool.false_eq_true, if_false]
      rcases hd : deploy env { ss with preflightRuns := ss.preflightRuns + 1 } with ⟨st1, b⟩
      have hpr := deploy_preflightRuns env { ss with preflightRuns := ss.preflightRuns + 1 }
      rw [hd] at hpr
      cases b <;> simp only [handle_error_preflightRuns] <;> simpa using hpr
    · have hp2 : preflightOk env = false := by
        cases hq : preflightOk env
        · rfl
        · exact absurd hq hp
      simp [hp2]
  · intro hp
    simp [runDeployScript, hpkg, hp]

theorem C9_preflight_every_attempt_witness :
    (runDeployScript { envFix with networkOk := false } ssFix).1.preflightRuns = 1 ∧
    runDeployScript { envFix with networkOk := false } ssFix
      = ({ ssFix with preflightRuns := 1 }, 1) := by
  have h := C9_preflight_every_attempt { envFix with networkOk := false } ssFix rfl
  exact ⟨h.1, h.2 rfl⟩

theorem runDeployScript_ok (env : ScriptEnv) (ss : ScriptState)
    (h : deployFullyOk env = true) :
    runDeployScript env ss =
      ({ repoTree := env.fetchedTree,
         backups := (newSnapshot env ss :: ss.backups).take 5,
         lastBackup := some (backupPathOf env),
         deploymentInfo := some (successRecord env),
         serviceRunning := true,
         preflightRuns := ss.preflightRuns + 1 }, 0) := by
  simp only [deployFullyOk, Bool.and_eq_true] at h
  obtain ⟨⟨⟨⟨⟨⟨⟨hpkg, hpre⟩, hgit⟩, hci⟩, hbuild⟩, hval⟩, hss⟩, hrun⟩ := h
  have hp := hpre
  simp only [preflightOk, Bool.and_eq_true] at hp
  obtain ⟨⟨⟨⟨hgiti, hnpmi⟩, hrepo⟩, hstat⟩, hnet⟩ := hp
  simp [runDeployScript, deploy, create_backup, stop_service, start_service, cleanup_backups,
    newSnapshot, hpkg, hpre, hgit, hci, hbuild, hval, hss, hrun, hnpmi, apply_ite]

theorem take_append_take {α : Type} (xs ys : List α) (n : Nat) :
    (xs ++ ys.take n).take n = (xs ++ ys).take n := by
  rw [List.take_append_eq_append_take, List.take_append_eq_append_take, List.take_take,
    Nat.min_eq_left (Nat.sub_le n xs.length)]

theorem deployMany_paths (envs : List ScriptEnv) (ss : ScriptState)
    (h : ∀ e ∈ envs, deployFullyOk e = true) (hlen : ss.backups.length ≤ 5) :
    (deployMany envs ss).backups.map (fun b => b.path)
      = ((envs.reverse.map backupPathOf) ++ ss.backups.map (fun b => b.path)).take 5 := by
  induction envs generalizing ss with
  | nil =>
    simp only [deployMany, List.foldl_nil, List.reverse_nil, List.map_nil, List.nil_append]
    rw [List.take_of_length_le (by simpa using hlen)]
  | cons e es ih =>
    have he := h e (List.mem_cons_self e es)
    have hes : ∀ x ∈ es, deployFullyOk x = true := fun x hx => h x (List.mem_cons_of_mem e hx)
    have hstep : deployMany (e :: es) ss
        = deployMany es (runDeployScript e ss).1 := by
      simp [deployMany]
    rw [hstep, runDeployScript_ok e ss he]
    rw [ih _ hes (by simp)]
    rw [List.map_take]
    simp only [List.map_cons, newSnapshot]
    rw [take_append_take]
    simp [List.append_assoc]

/-- C6: starting with no backups, after any sequence of more than five
successful deployments exactly five backup snapshots remain, and their
paths are those of the five most recent attempts, newest first in the
modification-time order the cleanup uses. -/
theorem C6_backup_retention (envs : List ScriptEnv) (ss : ScriptState)
    (hok : ∀ e ∈ envs, deployFullyOk e = true)
    (hstart : ss.backups = [])
    (hn : 5 < envs.length) :
    (deployMany envs ss).backups.length = 5 ∧
    (deployMany envs ss).backups.map (fun b => b.path)
      = (envs.reverse.map backupPathOf).take 5 := by
  have hpaths := deployMany_paths envs ss hok (by simp [hstart])
  rw [hstart] at hpaths
  simp only [List.map_nil, List.append_nil] at hpaths
  refine ⟨?_, hpaths⟩
  have hl : ((deployMany envs ss).backups.map (fun b => b.path)).length = 5 := by
    rw [hpaths, List.length_take, List.length_map, List.length_reverse]
    exact Nat.min_eq_left (Nat.le_of_lt hn)
  simpa using hl

theorem C6_backup_retention_witness :
    (deployMany
        [{ envFix with backupName := "backup-1", now := 1 },
         { envFix with backupName := "backup-2", now := 2 },
         { envFix with backupName := "backup-3", now := 3 },
         { envFix with backupName := "backup-4", now := 4 },
         { envFix with backupName := "backup-5", now := 5 },
         { envFix with backupName := "backup-6", now := 6 }] ssFix).backups.length = 5 ∧
    (deployMany
        [{ envFix with backupName := "backup-1", now := 1 },
         { envFix with backupName := "backup-2", now := 2 },
         { envFix with backupName := "backup-3", now := 3 },
         { envFix with backupName := "backup-4", now := 4 },
         { envFix with backupName := "backup-5", now := 5 },
         { envFix with backupName := "backup-6", now := 6 }] ssFix).backups.map (fun b => b.path)
      = ["/home/pi/backups/backup-6", "/home/pi/backups/backup-5", "/home/pi/backups/backup-4",
         "/home/pi/backups/backup-3", "/home/pi/backups/backup-2"] := by
  have h := C6_backup_retention
    [{ envFix with backupName := "backup-1", now := 1 },
     { envFix with backupName := "backup-2", now := 2 },
     { envFix with backupName := "backup-3", now := 3 },
     { envFix with backupName := "backup-4", now := 4 },
     { envFix with backupName := "backup-5", now := 5 },
     { envFix with backupName := "backup-6", now := 6 }] ssFix (by decide) rfl (by decide)
  exact ⟨h.1, by rw [h.2]; decide⟩

/-- C7: the HMAC input the webhook handler uses is the JSON.stringify
re-serialization of the already-parsed request body, not the raw wire
bytes: the shown raw body parses successfully, yet the handler hashes a
different string, so a signature computed over the raw bytes as sent by
the version-control host fails to verify. -/
theorem C7_hmac_input_is_reserialized_body :
    jsonParse "\x7b\"ref\": \"refs/heads/main\"\x7d"
        = some (Json.obj [("ref", Json.str "refs/heads/main")]) ∧
    webhookHmacPayload (Json.obj [("ref", Json.str "refs/heads/main")])
        ≠ "\x7b\"ref\": \"refs/heads/main\"\x7d" := by
  exact ⟨rfl, by decide⟩

end VoidMain
